import Mathlib

/-!
# Verification of the GEPA MSW-landfills allocation-and-gridding engine

Shallow embedding of `src/gch4i/sector_code/5A1_msw_landfills.py` and
`src/gch4i/emis_processing/task_carbides_emis.py`.

Numeric values are embedded as rationals (`ℚ`); pandas NaN is embedded as
`Option.none` where a NaN can flow through a computation.  A pandas / numpy
operation that raises on some inputs is embedded as a function into `Option`,
with `none` standing for the raised exception.
-/

namespace GEPA

/-- One row of the EPA state GHGI summary emissions table
(`EPA_msw_landfills_emissions` after ingestion): a state / year aggregate
`ch4_kt` quantity. -/
structure EmisRecord where
  state : String
  year : Int
  ch4_kt : ℚ
deriving DecidableEq, Repr

/-- One row of the facility table `msw_landfills_facilities_gdf`: the facility's
own reported `ch4_kt` (the proxy weight used for the proportional split) and its
point geometry, already mapped through the fixed `GEPA_PROFILE` affine
transform to the integer grid cell `(row, col)` it falls in.  `none` models a
missing / invalid geometry. -/
structure Facility where
  facility_id : Nat
  state : String
  year : Int
  ch4_kt : ℚ
  geometry : Option (Int × Int)
deriving DecidableEq, Repr

/-- Embeds `inventory_df[(inventory_df["state"] == state) & (inventory_df["year"]
== year)]["ch4_kt"].iat[0]` (lines 312–314): the `ch4_kt` of the first inventory
row matching the group key.  `.iat[0]` raises `IndexError` when no row matches;
that raise is embedded as `none`. -/
def lookupEmi (inventory_df : List EmisRecord) (state : String) (year : Int) :
    Option ℚ :=
  (inventory_df.find? (fun r => r.state == state && r.year == year)).map (·.ch4_kt)

/-- The `ch4_kt` weights of the facilities in the `(state, year)` group — the
Series `fac_emissions` that `groupby(["state", "year"])["ch4_kt"]` hands to the
transform for that group. -/
def groupWeights (facs : List Facility) (state : String) (year : Int) : List ℚ :=
  (facs.filter (fun f => f.state == state && f.year == year)).map (·.ch4_kt)

/-- Embeds `state_year_allocation_emissions` (lines 301–321) at one row of the
table: the value the groupby-transform writes into `allocated_ch4_kt` for
facility `f`.  The body is
`((fac_emissions / fac_emissions.sum()) * emi_sum).fillna(0)`:
with the non-negative weights of this data, a zero group weight sum makes every
ratio `0/0 = NaN`, which `.fillna(0)` turns into `0`; the `if` branch embeds
exactly that.  A failed inventory lookup (`.iat[0]` raising) is `none`. -/
def allocated_ch4_kt (facs : List Facility) (inventory_df : List EmisRecord)
    (f : Facility) : Option ℚ :=
  (lookupEmi inventory_df f.state f.year).map (fun emi_sum =>
    let ws := groupWeights facs f.state f.year
    if ws.sum = 0 then 0 else f.ch4_kt / ws.sum * emi_sum)

/-- Helper for `allocate`: walks the rows of the facility table, computing each
row's `allocated_ch4_kt` against the full table `facs` (the groupby sees all
rows).  Any row whose group has no inventory record makes the whole transform
raise, embedded as `none`. -/
def allocateAux (inventory_df : List EmisRecord) (facs : List Facility) :
    List Facility → Option (List (Facility × ℚ))
  | [] => some []
  | f :: rest =>
    (allocated_ch4_kt facs inventory_df f).bind (fun v =>
      (allocateAux inventory_df facs rest).map (fun out => (f, v) :: out))

/-- Embeds the groupby-transform at lines 327–329:
`msw_landfills_facilities_gdf.groupby(["state", "year"])["ch4_kt"]
.transform(state_year_allocation_emissions, inventory_df=...)` — every row of
the facility table paired with its allocated quantity, aligned to the input
rows; `none` when the transform raises on a group with no inventory record. -/
def allocate (inventory_df : List EmisRecord) (facs : List Facility) :
    Option (List (Facility × ℚ)) :=
  allocateAux inventory_df facs facs

/-- Embeds one row group of the `sum_check` QA table (lines 339–349): the sum of
`allocated_ch4_kt` over the rows of one `(state, year)` group of the transform
output. -/
def groupAllocatedSum (out : List (Facility × ℚ)) (state : String) (year : Int) : ℚ :=
  ((out.filter (fun p => p.1.state == state && p.1.year == year)).map Prod.snd).sum

/-! ## Rasterization (STEP 5, lines 397–427)

A raster is a cell-indexed array of `ℚ`, embedded as a total function on
`Nat × Nat` indices; `rasterio.features.rasterize` with `fill=0` and
`merge_alg=MergeAlg.add` burns each `(geometry, value)` pair in turn, adding
the value into the cell the geometry maps to.  A shape whose geometry is
missing/invalid (`none`) or maps outside `out_shape` burns nothing (rasterio
skips it, emitting a warning that the surrounding
`warnings.simplefilter("ignore")` suppresses). -/

/-- A raster layer of the grid: cell `(row, col)` holds a `ℚ` value. -/
abbrev Raster := Nat → Nat → ℚ

/-- The all-zero raster: the `fill=0` initial state of `rasterize`. -/
def zeroRaster : Raster := fun _ _ => 0

/-- Whether an integer cell index produced by the affine transform lies inside
an `out_shape` of `rows × cols`. -/
def inGrid (rows cols : Nat) (cell : Int × Int) : Bool :=
  0 ≤ cell.1 && cell.1 < (rows : Int) && 0 ≤ cell.2 && cell.2 < (cols : Int)

/-- Burning one `(shape, value)` pair with `merge_alg=MergeAlg.add`: the value
is ADDED into the enclosing cell; missing and out-of-extent geometries burn
nothing. -/
def burnShape (rows cols : Nat) (acc : Raster) (s : Option (Int × Int) × ℚ) :
    Raster :=
  match s.1 with
  | none => acc
  | some cell =>
    if inGrid rows cols cell then
      fun i j => if i = cell.1.toNat ∧ j = cell.2.toNat then acc i j + s.2 else acc i j
    else acc

/-- Embeds the `rasterize(shapes=[(shape, value) ...], out_shape=ARR_SHAPE,
fill=0, transform=GEPA_PROFILE["transform"], dtype=np.float64,
merge_alg=rasterio.enums.MergeAlg.add)` call at lines 411–421, producing one
year's `ch4_kt_raster`. -/
def rasterize (shapes : List (Option (Int × Int) × ℚ)) (rows cols : Nat) : Raster :=
  shapes.foldl (burnShape rows cols) zeroRaster

/-- Whether shape `s` lands in cell `(i, j)` of the grid: its geometry exists,
is in the grid extent, and maps to that cell. -/
def hitsCell (rows cols i j : Nat) (s : Option (Int × Int) × ℚ) : Bool :=
  match s.1 with
  | none => false
  | some cell => inGrid rows cols cell && cell.1.toNat == i && cell.2.toNat == j

/-- Whether a shape gets burned at all: geometry present and inside the grid
extent.  Shapes with `validShape = false` are the ones rasterio skips. -/
def validShape (rows cols : Nat) (s : Option (Int × Int) × ℚ) : Bool :=
  match s.1 with
  | none => false
  | some cell => inGrid rows cols cell

/-! ## Calendar and flux conversion (STEP 5, lines 406–424) -/

/-- Embeds Python `calendar.isleap(year)`:
`year % 4 == 0 and (year % 100 != 0 or year % 400 == 0)`. -/
def isleap (year : Int) : Bool :=
  year % 4 == 0 && (year % 100 != 0 || year % 400 == 0)

/-- Embeds `calendar.monthrange(year, month)[1]`: the number of days of the
given month (Python computes `mdays[month] + (month == 2 and isleap(year))`
with `mdays = [0,31,28,31,30,31,30,31,31,30,31,30,31]`). -/
def monthrange_days (year : Int) (month : Nat) : Nat :=
  if month = 2 then (if isleap year then 29 else 28)
  else if month = 4 ∨ month = 6 ∨ month = 9 ∨ month = 11 then 30
  else 31

/-- Embeds `month_days = [calendar.monthrange(year, x)[1] for x in range(1, 13)]`
(line 406). -/
def month_days (year : Int) : List Nat :=
  (List.range' 1 12).map (monthrange_days year)

/-- Embeds `year_days = np.sum(month_days)` (line 407): the exact day count of
the calendar year. -/
def year_days (year : Int) : Nat :=
  (month_days year).sum

/-- Modelled from the spec: `calc_conversion_factor` is imported from
`gch4i.utils`, which is not among the sources.  Per the spec (§4.3 FluxConverter,
`flux[r,c] = mass[r,c] / (cell_area(r,c) * period_length)`), the factor the code
multiplies the mass raster by is the elementwise reciprocal of
`cell_area * period_length`. -/
def calc_conversion_factor (year_days : ℚ) (area_matrix : Raster) : Raster :=
  fun r c => 1 / (area_matrix r c * year_days)

/-- Embeds `ch4_flux_raster = ch4_kt_raster * conversion_factor_annual`
(line 424): numpy elementwise product of the mass raster with the conversion
factor raster. -/
def ch4_flux_raster (ch4_kt_raster : Raster) (conversion_factor_annual : Raster) :
    Raster :=
  fun r c => ch4_kt_raster r c * conversion_factor_annual r c

/-! ## Inventory ingestion (`task_carbides_emis.py` lines 25–84, and the
identical idiom at `5A1_msw_landfills.py` lines 123–169)

A workbook cell is either a number or a string (the inventory sheets hold
quantities as numbers and not-occurring flags such as `"NO"` as strings).
`pd.to_numeric(errors="coerce")` turns every non-numeric cell into NaN,
embedded as `none`. -/

/-- A raw cell of the `InvDB` sheet: a numeric quantity or a string flag such
as `"NO"`. -/
inductive CellValue where
  | num (q : ℚ)
  | str (s : String)
deriving DecidableEq, Repr

/-- One raw sheet row: the state identifier, the `ghg` column, and the year
columns' cells (positionally aligned with the sheet's year header). -/
structure RawRow where
  state_code : String
  ghg : String
  cells : List CellValue
deriving DecidableEq, Repr

/-- One row of the ingested long table: `(state_code, year, ghgi_ch4_kt)`,
where the quantity is `Option ℚ` so that a NaN surviving the pipeline would be
visible as `none`. -/
structure EmiRow where
  state_code : String
  year : Int
  ghgi_ch4_kt : Option ℚ
deriving DecidableEq, Repr

/-- Embeds `.apply(pd.to_numeric, errors="coerce")` on one cell: numbers pass
through, non-numeric strings (the `"NO"` / `"NE"` flags of these sheets) become
NaN (`none`) instead of raising. -/
def to_numeric_coerce : CellValue → Option ℚ
  | .num q => some q
  | .str _ => none

/-- Embeds the ingestion pipeline of `task_carbides_emi_` (lines 25–83):
filter to `ghg == 'CH4'`, coerce every year cell to numeric (non-numeric →
NaN), `.dropna(how="all")` on the year columns, melt to a long
`(state_code, year, ch4_tg)` table, convert `ch4_tg * tg_to_kt`, then
`.fillna({"ghgi_ch4_kt": 0})` and keep the years in
`[min_year, max_year]`.  `years` is the sheet's year header, positionally
aligned with each row's `cells`; `tg_to_kt` is the unit constant from
`gch4i.utils` (not among the sources), left as a parameter. -/
def task_carbides_emi (years : List Int) (tg_to_kt : ℚ) (min_year max_year : Int)
    (rows : List RawRow) : List EmiRow :=
  let ch4 := rows.filter (fun r => r.ghg == "CH4")
  let coerced := ch4.map (fun r => (r.state_code, r.cells.map to_numeric_coerce))
  let dropped := coerced.filter (fun p => !(p.2.all Option.isNone))
  let melted := dropped.flatMap (fun p => (years.zip p.2).map (fun yc => (p.1, yc.1, yc.2)))
  let kt := melted.map (fun t => (t.1, t.2.1, (t.2.2).map (· * tg_to_kt)))
  let filled := kt.map (fun t =>
    { state_code := t.1, year := t.2.1, ghgi_ch4_kt := some ((t.2.2).getD 0) : EmiRow })
  filled.filter (fun r => min_year ≤ r.year && r.year ≤ max_year)

/-- Embeds the ingestion of the state GHGI table in
`5A1_msw_landfills.py` lines 123–169 (`EPA_msw_landfills_emissions`): the same
`to_numeric(coerce) → dropna(how="all") → melt → * tg_to_kt → astype →
fillna(0) → year-range query` chain as `task_carbides_emi_`, with columns named
`state` / `ch4_kt` instead of `state_code` / `ghgi_ch4_kt`. -/
def EPA_msw_landfills_emissions (years : List Int) (tg_to_kt : ℚ)
    (min_year max_year : Int) (rows : List RawRow) : List EmiRow :=
  task_carbides_emi years tg_to_kt min_year max_year rows

/-! ## Concrete fixtures

Small concrete tables used to instantiate the theorems; the CA scenario is the
spec's §8 end-to-end example (aggregate 100, facility weights 3 / 1 / 1). -/

/-- State inventory with one aggregate: (CA, 2020) ↦ 100 kt. -/
def invCA : List EmisRecord := [{ state := "CA", year := 2020, ch4_kt := 100 }]

/-- CA facility with weight 3 in cell (0,0). -/
def facCA1 : Facility :=
  { facility_id := 1, state := "CA", year := 2020, ch4_kt := 3, geometry := some (0, 0) }

/-- CA facility with weight 1 in cell (0,0). -/
def facCA2 : Facility :=
  { facility_id := 2, state := "CA", year := 2020, ch4_kt := 1, geometry := some (0, 0) }

/-- CA facility with weight 1 in cell (1,1). -/
def facCA3 : Facility :=
  { facility_id := 3, state := "CA", year := 2020, ch4_kt := 1, geometry := some (1, 1) }

/-- The CA facility table of the §8 scenario. -/
def facsCA : List Facility := [facCA1, facCA2, facCA3]

/-- The allocation the §8 scenario expects: 60 / 20 / 20. -/
def outCA : List (Facility × ℚ) := [(facCA1, 60), (facCA2, 20), (facCA3, 20)]

/-- State inventory with one aggregate: (WA, 2019) ↦ 7 kt. -/
def invWA : List EmisRecord := [{ state := "WA", year := 2019, ch4_kt := 7 }]

/-- WA facility with zero weight. -/
def facWA1 : Facility :=
  { facility_id := 4, state := "WA", year := 2019, ch4_kt := 0, geometry := some (2, 3) }

/-- WA facility with zero weight and missing geometry. -/
def facWA2 : Facility :=
  { facility_id := 5, state := "WA", year := 2019, ch4_kt := 0, geometry := none }

/-- A facility table whose single group has all-zero weights. -/
def facsWA : List Facility := [facWA1, facWA2]

/-- An IL facility: IL has no record in `invCA`, so its group has sources but no
matching aggregate. -/
def facIL : Facility :=
  { facility_id := 6, state := "IL", year := 2020, ch4_kt := 5, geometry := some (0, 1) }

/-! ## Lemmas about the allocation transform -/

/-- Every row of a successful transform output carries exactly the
`allocated_ch4_kt` value computed for its facility. -/
lemma allocateAux_mem (inventory_df : List EmisRecord) (facs : List Facility) :
    ∀ (l : List Facility) (out : List (Facility × ℚ)),
      allocateAux inventory_df facs l = some out →
      ∀ p ∈ out, allocated_ch4_kt facs inventory_df p.1 = some p.2 := by
  intro l
  induction l with
  | nil =>
    intro out h p hp
    simp only [allocateAux, Option.some.injEq] at h
    subst h
    simp at hp
  | cons f rest ih =>
    intro out h p hp
    simp only [allocateAux, Option.bind_eq_some, Option.map_eq_some'] at h
    obtain ⟨v, hv, out2, hr, rfl⟩ := h
    rcases List.mem_cons.mp hp with rfl | hp2
    · simpa using hv
    · exact ih out2 hr p hp2

/-- A successful transform's per-group sum of `allocated_ch4_kt` equals the sum
of the computed per-facility values over the group's rows. -/
lemma allocateAux_groupSum (inventory_df : List EmisRecord) (facs : List Facility)
    (state : String) (year : Int) :
    ∀ (l : List Facility) (out : List (Facility × ℚ)),
      allocateAux inventory_df facs l = some out →
      groupAllocatedSum out state year
        = ((l.filter (fun f => f.state == state && f.year == year)).map
            (fun f => (allocated_ch4_kt facs inventory_df f).getD 0)).sum := by
  intro l
  induction l with
  | nil =>
    intro out h
    simp only [allocateAux, Option.some.injEq] at h
    subst h
    simp [groupAllocatedSum]
  | cons f rest ih =>
    intro out h
    simp only [allocateAux, Option.bind_eq_some, Option.map_eq_some'] at h
    obtain ⟨v, hv, out2, hr, rfl⟩ := h
    have hrec := ih out2 hr
    by_cases hf : (f.state == state && f.year == year) = true
    · have hl : groupAllocatedSum ((f, v) :: out2) state year
          = v + groupAllocatedSum out2 state year := by
        simp [groupAllocatedSum, List.filter_cons, hf]
      rw [hl, hrec, List.filter_cons, if_pos hf, List.map_cons, List.sum_cons, hv]
      simp
    · have hl : groupAllocatedSum ((f, v) :: out2) state year
          = groupAllocatedSum out2 state year := by
        simp [groupAllocatedSum, List.filter_cons, hf]
      rw [hl, hrec, List.filter_cons, if_neg (by simpa using hf)]

/-- If any row of the traversed list has a failed inventory lookup, the whole
transform raises. -/
lemma allocateAux_none_of_mem (inventory_df : List EmisRecord) (facs : List Facility) :
    ∀ (l : List Facility) (f : Facility), f ∈ l →
      allocated_ch4_kt facs inventory_df f = none →
      allocateAux inventory_df facs l = none := by
  intro l
  induction l with
  | nil => intro f hf; simp at hf
  | cons g rest ih =>
    intro f hf hnone
    rcases List.mem_cons.mp hf with rfl | hf2
    · simp [allocateAux, hnone]
    · rw [allocateAux, ih f hf2 hnone]
      cases allocated_ch4_kt facs inventory_df g <;> rfl

/-- Summing `w / S * q` over a list of weights factors the constant out. -/
lemma sum_map_div_mul (ws : List ℚ) (S q : ℚ) :
    (ws.map (fun w => w / S * q)).sum = ws.sum / S * q := by
  induction ws with
  | nil => simp
  | cons w rest ih =>
    simp only [List.map_cons, List.sum_cons, ih]
    ring

/-! ## Claim theorems: allocation -/

/-- C1: for every group (state, year) with a matching aggregate record and at
least one source, the allocation transform assigns to each source the quantity
`allocated_ch4_kt = (weight / sum of group weights) * aggregate quantity`. -/
theorem allocation_formula (inventory_df : List EmisRecord) (facs : List Facility)
    (f : Facility) (v q : ℚ) (out : List (Facility × ℚ))
    (hout : allocate inventory_df facs = some out)
    (hmem : (f, v) ∈ out)
    (hq : lookupEmi inventory_df f.state f.year = some q)
    (hS : (groupWeights facs f.state f.year).sum ≠ 0) :
    v = f.ch4_kt / (groupWeights facs f.state f.year).sum * q := by
  have h := allocateAux_mem inventory_df facs facs out hout (f, v) hmem
  simp only [allocated_ch4_kt, hq, Option.map_some', Option.some.injEq] at h
  rw [if_neg hS] at h
  exact h.symm

/-- C1 witness: the spec §8 scenario — aggregate (CA, 2020) = 100, weights
3 / 1 / 1 — allocates 60 to the weight-3 facility, agreeing with the formula. -/
theorem allocation_formula_witness :
    allocate invCA facsCA = some outCA ∧
    (60 : ℚ) = facCA1.ch4_kt / (groupWeights facsCA facCA1.state facCA1.year).sum * 100 :=
  ⟨by norm_num [allocate, allocateAux, allocated_ch4_kt, lookupEmi, groupWeights,
      invCA, facsCA, facCA1, facCA2, facCA3, outCA, List.find?, List.filter],
   allocation_formula invCA facsCA facCA1 60 100 outCA
    (by norm_num [allocate, allocateAux, allocated_ch4_kt, lookupEmi, groupWeights,
      invCA, facsCA, facCA1, facCA2, facCA3, outCA, List.find?, List.filter])
    (List.Mem.head _) (by rfl)
    (by norm_num [groupWeights, facsCA, facCA1, facCA2, facCA3, List.filter])⟩

/-- C2: for every group whose weight sum is strictly positive and whose
aggregate record exists, the sum of allocated quantities over the group's rows
of the transform output equals the aggregate quantity (exactly, hence within
any tolerance). -/
theorem allocation_conserves_group_sum (inventory_df : List EmisRecord)
    (facs : List Facility) (out : List (Facility × ℚ)) (state : String)
    (year : Int) (q : ℚ)
    (hout : allocate inventory_df facs = some out)
    (hq : lookupEmi inventory_df state year = some q)
    (hS : 0 < (groupWeights facs state year).sum) :
    groupAllocatedSum out state year = q := by
  have hsum := allocateAux_groupSum inventory_df facs state year facs out hout
  have hcong : ∀ f ∈ facs.filter (fun f => f.state == state && f.year == year),
      (allocated_ch4_kt facs inventory_df f).getD 0
        = f.ch4_kt / (groupWeights facs state year).sum * q := by
    intro f hf
    have hfp := (List.mem_filter.mp hf).2
    simp only [Bool.and_eq_true, beq_iff_eq] at hfp
    obtain ⟨h1, h2⟩ := hfp
    simp only [allocated_ch4_kt, h1, h2, hq, Option.map_some', Option.getD_some]
    rw [if_neg hS.ne']
  rw [hsum, List.map_congr_left hcong]
  have hmm : (facs.filter (fun f => f.state == state && f.year == year)).map
        (fun f => f.ch4_kt / (groupWeights facs state year).sum * q)
      = (groupWeights facs state year).map
        (fun w => w / (groupWeights facs state year).sum * q) := by
    rw [groupWeights, List.map_map]
    rfl
  rw [hmm, sum_map_div_mul, div_self hS.ne', one_mul]

/-- C2 witness: in the §8 scenario the (CA, 2020) group sums 60 + 20 + 20 back
to the aggregate 100. -/
theorem allocation_conserves_group_sum_witness :
    allocate invCA facsCA = some outCA ∧ groupAllocatedSum outCA "CA" 2020 = 100 :=
  ⟨by norm_num [allocate, allocateAux, allocated_ch4_kt, lookupEmi, groupWeights,
      invCA, facsCA, facCA1, facCA2, facCA3, outCA, List.find?, List.filter],
   allocation_conserves_group_sum invCA facsCA outCA "CA" 2020 100
    (by norm_num [allocate, allocateAux, allocated_ch4_kt, lookupEmi, groupWeights,
      invCA, facsCA, facCA1, facCA2, facCA3, outCA, List.find?, List.filter])
    (by rfl)
    (by norm_num [groupWeights, facsCA, facCA1, facCA2, facCA3, List.filter])⟩

/-- C3: in a group whose weights are all zero, the allocation performs no
division error and assigns an explicit zero (not NaN: the output value is a
plain rational, not an `Option`) to every source of the group. -/
theorem allocation_zero_weights (inventory_df : List EmisRecord)
    (facs : List Facility) (f : Facility) (v q : ℚ) (out : List (Facility × ℚ))
    (hout : allocate inventory_df facs = some out)
    (hmem : (f, v) ∈ out)
    (hq : lookupEmi inventory_df f.state f.year = some q)
    (hzero : ∀ w ∈ groupWeights facs f.state f.year, w = 0) :
    v = 0 := by
  have hS : (groupWeights facs f.state f.year).sum = 0 := List.sum_eq_zero hzero
  have h := allocateAux_mem inventory_df facs facs out hout (f, v) hmem
  simp only [allocated_ch4_kt, hq, Option.map_some', Option.some.injEq] at h
  rw [if_pos hS] at h
  exact h.symm

/-- C3 witness: the all-zero-weight (WA, 2019) group allocates an explicit 0 to
each of its two facilities. -/
theorem allocation_zero_weights_witness :
    allocate invWA facsWA = some [(facWA1, 0), (facWA2, 0)] ∧ (0 : ℚ) = 0 :=
  ⟨by norm_num [allocate, allocateAux, allocated_ch4_kt, lookupEmi, groupWeights,
      invWA, facsWA, facWA1, facWA2, List.find?, List.filter],
   allocation_zero_weights invWA facsWA facWA1 0 7 [(facWA1, 0), (facWA2, 0)]
    (by norm_num [allocate, allocateAux, allocated_ch4_kt, lookupEmi, groupWeights,
      invWA, facsWA, facWA1, facWA2, List.find?, List.filter])
    (List.Mem.head _) (by rfl)
    (by norm_num [groupWeights, facsWA, facWA1, facWA2, List.filter])⟩

/-- C4 counterexample: `facIL` is a source whose (IL, 2020) group has no
matching aggregate in the empty inventory; the transform raises (`none`)
instead of emitting zero-quantity records with an "aggregate missing" flag. -/
theorem allocate_missing_aggregate_cex :
    lookupEmi [] facIL.state facIL.year = none ∧ allocate [] [facIL] = none :=
  ⟨rfl, rfl⟩

/-- C4 (amended): for every group that has a source but no matching aggregate
record, the allocation transform raises (the `.iat[0]` lookup fails), producing
no allocated records and no report. -/
theorem allocate_missing_aggregate_raises (inventory_df : List EmisRecord)
    (facs : List Facility) (f : Facility)
    (hmem : f ∈ facs)
    (hnone : lookupEmi inventory_df f.state f.year = none) :
    allocate inventory_df facs = none := by
  apply allocateAux_none_of_mem inventory_df facs facs f hmem
  simp [allocated_ch4_kt, hnone]

/-- C4 witness: with the CA-only inventory, a table containing the IL facility
makes the whole transform raise. -/
theorem allocate_missing_aggregate_raises_witness :
    allocate invCA [facIL] = none :=
  allocate_missing_aggregate_raises invCA [facIL] facIL (List.Mem.head _) (by rfl)

/-! ## Claim theorems: rasterization -/

/-- Folding `burnShape` over any shape list starting from any accumulator adds,
at every cell, exactly the sum of the values of the shapes landing there. -/
lemma foldl_burnShape_eq (rows cols : Nat) :
    ∀ (shapes : List (Option (Int × Int) × ℚ)) (acc : Raster) (i j : Nat),
      shapes.foldl (burnShape rows cols) acc i j
        = acc i j + ((shapes.filter (hitsCell rows cols i j)).map Prod.snd).sum := by
  intro shapes
  induction shapes with
  | nil => intro acc i j; simp
  | cons s rest ih =>
    intro acc i j
    rw [List.foldl_cons, ih]
    rcases s with ⟨g, v⟩
    cases g with
    | none =>
      simp [burnShape, hitsCell, List.filter_cons]
    | some cell =>
      by_cases hg : inGrid rows cols cell = true
      · by_cases hij : i = cell.1.toNat ∧ j = cell.2.toNat
        · have hh : hitsCell rows cols i j (some cell, v) = true := by
            simp [hitsCell, hg, hij.1, hij.2]
          simp only [burnShape, hg, if_true, List.filter_cons, hh, List.map_cons,
            List.sum_cons, if_pos hij]
          ring
        · have hh : hitsCell rows cols i j (some cell, v) = false := by
            simp only [hitsCell, hg, Bool.true_and, Bool.and_eq_false_imp]
            intro h1
            simp only [beq_iff_eq] at h1
            simp only [beq_eq_false_iff_ne]
            intro h2
            exact hij ⟨h1.symm, h2.symm⟩
          simp only [burnShape, hg, if_true, List.filter_cons, hh, if_neg hij]
          simp
      · have hh : hitsCell rows cols i j (some cell, v) = false := by
          simp [hitsCell, hg]
        have hb : inGrid rows cols cell ≠ true := by simp [hg]
        simp only [burnShape, if_neg hb, List.filter_cons, hh]
        simp

/-- The cell value of a rasterized layer is the sum of the values of the shapes
that land in that cell. -/
lemma rasterize_eq_cellSum (shapes : List (Option (Int × Int) × ℚ))
    (rows cols i j : Nat) :
    rasterize shapes rows cols i j
      = ((shapes.filter (hitsCell rows cols i j)).map Prod.snd).sum := by
  rw [rasterize, foldl_burnShape_eq]
  simp [zeroRaster]

/-- C5: rasterization with `merge_alg=MergeAlg.add` sums co-located records
instead of overwriting: two shapes burned into the same in-extent cell leave
the sum of their two values in that cell. -/
theorem rasterize_additive_merge (rows cols : Nat) (cell : Int × Int) (v1 v2 : ℚ)
    (h : inGrid rows cols cell = true) :
    rasterize [(some cell, v1), (some cell, v2)] rows cols cell.1.toNat cell.2.toNat
      = v1 + v2 := by
  rw [rasterize_eq_cellSum]
  have hh : hitsCell rows cols cell.1.toNat cell.2.toNat
      ((some cell : Option (Int × Int)), v1) = true := by
    simp [hitsCell, h]
  have hh2 : hitsCell rows cols cell.1.toNat cell.2.toNat
      ((some cell : Option (Int × Int)), v2) = true := by
    simp [hitsCell, h]
  simp [List.filter_cons, hh, hh2]

/-- C5 witness: two sources with weights 1 and 1 in a group with aggregate 10
each receive 5; burned into the same cell (0, 0) of a 10 × 10 grid, the cell
value is 10. -/
theorem rasterize_additive_merge_witness :
    allocate [{ state := "CA", year := 2020, ch4_kt := 10 }] [facCA2, facCA3]
        = some [(facCA2, 5), (facCA3, 5)] ∧
    rasterize [(some (0, 0), 5), (some (0, 0), 5)] 10 10 0 0 = 5 + 5 :=
  ⟨by norm_num [allocate, allocateAux, allocated_ch4_kt, lookupEmi, groupWeights,
      facCA2, facCA3, List.find?, List.filter],
   rasterize_additive_merge 10 10 (0, 0) 5 5 (by rfl)⟩

/-- C6: rasterization is invariant to the order of its input records — any
permutation of the shape list yields the identical raster layer. -/
theorem rasterize_perm_invariant (shapes shapes2 : List (Option (Int × Int) × ℚ))
    (rows cols : Nat) (hperm : shapes.Perm shapes2) :
    rasterize shapes rows cols = rasterize shapes2 rows cols := by
  funext i j
  rw [rasterize_eq_cellSum, rasterize_eq_cellSum]
  exact List.Perm.sum_eq ((hperm.filter _).map _)

/-- C6 witness: swapping two concrete records yields the identical raster. -/
theorem rasterize_perm_invariant_witness :
    rasterize [(some (0, 0), 3), (some (1, 2), 4)] 10 10
      = rasterize [(some (1, 2), 4), (some (0, 0), 3)] 10 10 :=
  rasterize_perm_invariant _ _ 10 10
    (List.Perm.swap ((some (1, 2) : Option (Int × Int)), (4 : ℚ)) (some (0, 0), 3) [])

/-- C9 counterexample: the same raster comes back whether or not an
invalid-geometry record was in the input, so the number of excluded records is
not reported to the caller in any form — the returned rasters are the whole
output of the rasterization step, and the skipped-shape warnings are
suppressed by `warnings.simplefilter("ignore")`. -/
theorem rasterize_excluded_no_trace_cex :
    validShape 10 10 ((none : Option (Int × Int)), (7 : ℚ)) = false ∧
    rasterize [(none, 7), (some (1, 2), 3)] 10 10
      = rasterize [(some (1, 2), 3)] 10 10 :=
  ⟨rfl, rfl⟩

/-- C9 (amended): every record whose geometry is missing/invalid or falls
outside the grid extent is excluded from the rasterized sum, and the output is
identical to rasterizing without it — no count of excluded records is
reported. -/
theorem rasterize_excludes_invalid (shapes : List (Option (Int × Int) × ℚ))
    (s : Option (Int × Int) × ℚ) (rows cols : Nat)
    (h : validShape rows cols s = false) :
    rasterize (s :: shapes) rows cols = rasterize shapes rows cols := by
  have hz : burnShape rows cols zeroRaster s = zeroRaster := by
    rcases s with ⟨g, v⟩
    cases g with
    | none => rfl
    | some cell =>
      simp only [validShape] at h
      simp [burnShape, h]
  rw [rasterize, List.foldl_cons, hz, rasterize]

/-- C9 witness: an out-of-extent point (row −3) burns nothing on a 10 × 10
grid. -/
theorem rasterize_excludes_invalid_witness :
    validShape 10 10 ((some (-3, 2) : Option (Int × Int)), (9 : ℚ)) = false ∧
    rasterize [(some (-3, 2), 9), (some (0, 0), 1)] 10 10
      = rasterize [(some (0, 0), 1)] 10 10 :=
  ⟨by rfl, rasterize_excludes_invalid [(some (0, 0), 1)] (some (-3, 2), 9) 10 10 (by rfl)⟩

/-! ## Claim theorems: flux conversion and calendar -/

/-- C7: the flux conversion is the pure elementwise transform
`flux[r,c] = mass[r,c] / (cell_area(r,c) * period_length)` at every cell. -/
theorem flux_elementwise (mass area_matrix : Raster) (period_length : ℚ)
    (r c : Nat) :
    ch4_flux_raster mass (calc_conversion_factor period_length area_matrix) r c
      = mass r c / (area_matrix r c * period_length) := by
  simp only [ch4_flux_raster, calc_conversion_factor, mul_one_div]

/-- C8: `year_days` is the exact day count of the specific year — 366 for leap
years such as 2020, 365 otherwise — and identical mass input for 2020 and 2021
yields flux values in the ratio 365/366 at every cell. -/
theorem leap_year_flux_ratio :
    year_days 2020 = 366 ∧ year_days 2021 = 365 ∧
    (∀ year : Int, year_days year = if isleap year then 366 else 365) ∧
    ∀ (mass area_matrix : Raster) (r c : Nat),
      ch4_flux_raster mass
          (calc_conversion_factor ((year_days 2020 : Nat) : ℚ) area_matrix) r c
        = 365 / 366
          * ch4_flux_raster mass
              (calc_conversion_factor ((year_days 2021 : Nat) : ℚ) area_matrix) r c := by
  have hmd : ∀ year : Int, month_days year
      = [31, if isleap year then 29 else 28, 31, 30, 31, 30, 31, 31, 30, 31, 30, 31] :=
    fun _ => rfl
  have hgen : ∀ year : Int, year_days year = if isleap year then 366 else 365 := by
    intro year
    rw [year_days, hmd]
    cases h : isleap year <;> simp [h]
  have h2020 : year_days 2020 = 366 := by rw [hgen]; rfl
  have h2021 : year_days 2021 = 365 := by rw [hgen]; rfl
  refine ⟨h2020, h2021, hgen, ?_⟩
  intro mass area_matrix r c
  have e20 : ((year_days 2020 : Nat) : ℚ) = 366 := by rw [h2020]; norm_num
  have e21 : ((year_days 2021 : Nat) : ℚ) = 365 := by rw [h2021]; norm_num
  simp only [ch4_flux_raster, calc_conversion_factor, e20, e21]
  by_cases ha : area_matrix r c = 0
  · simp [ha]
  · field_simp
    ring

/-! ## Claim theorems: inventory ingestion -/

/-- C10: inventory ingestion never leaves a NaN behind: every quantity of the
ingested table is a defined rational (`isSome`), and a non-numeric `"NO"` cell
is coerced to NaN and then filled with 0 (concrete run shown: a state row with
cells `["NO", 2]` yields quantities `0` and `2 * tg_to_kt`). -/
theorem ingestion_no_nan :
    (∀ (years : List Int) (tg_to_kt : ℚ) (min_year max_year : Int)
        (rows : List RawRow) (r : EmiRow),
        r ∈ task_carbides_emi years tg_to_kt min_year max_year rows →
        (r.ghgi_ch4_kt).isSome = true) ∧
    (∀ (years : List Int) (tg_to_kt : ℚ) (min_year max_year : Int)
        (rows : List RawRow) (r : EmiRow),
        r ∈ EPA_msw_landfills_emissions years tg_to_kt min_year max_year rows →
        (r.ghgi_ch4_kt).isSome = true) ∧
    task_carbides_emi [2020, 2021] 1000 1990 2022
        [{ state_code := "NE", ghg := "CH4", cells := [.str "NO", .num 2] }]
      = [{ state_code := "NE", year := 2020, ghgi_ch4_kt := some 0 },
         { state_code := "NE", year := 2021, ghgi_ch4_kt := some 2000 }] := by
  have h1 : ∀ (years : List Int) (tg_to_kt : ℚ) (min_year max_year : Int)
      (rows : List RawRow) (r : EmiRow),
      r ∈ task_carbides_emi years tg_to_kt min_year max_year rows →
      (r.ghgi_ch4_kt).isSome = true := by
    intro years tg_to_kt min_year max_year rows r hr
    simp only [task_carbides_emi] at hr
    have hr2 := (List.mem_filter.mp hr).1
    obtain ⟨t, ht, rfl⟩ := List.mem_map.mp hr2
    rfl
  refine ⟨h1, h1, ?_⟩
  norm_num [task_carbides_emi, to_numeric_coerce, List.filter, List.zip,
    List.zipWith, List.flatMap]

/-- C10 witness: the "NE" row with the `"NO"` flag produces the defined
quantity 0 in the ingested table. -/
theorem ingestion_no_nan_witness :
    ({ state_code := "NE", year := 2020, ghgi_ch4_kt := some 0 } : EmiRow)
      ∈ task_carbides_emi [2020, 2021] 1000 1990 2022
          [{ state_code := "NE", ghg := "CH4", cells := [.str "NO", .num 2] }] ∧
    ({ state_code := "NE", year := 2020, ghgi_ch4_kt := some 0 } : EmiRow).ghgi_ch4_kt.isSome
      = true := by
  have hmem : ({ state_code := "NE", year := 2020, ghgi_ch4_kt := some 0 } : EmiRow)
      ∈ task_carbides_emi [2020, 2021] 1000 1990 2022
          [{ state_code := "NE", ghg := "CH4", cells := [.str "NO", .num 2] }] := by
    rw [ingestion_no_nan.2.2]
    exact List.Mem.head _
  exact ⟨hmem, ingestion_no_nan.1 [2020, 2021] 1000 1990 2022 _ _ hmem⟩

end GEPA
